import Mathlib

set_option maxRecDepth 100000

/-!
Verification development for the MoonTVPlus AI data-source orchestrator and
chat streaming endpoint.

The definitions below are a shallow embedding, translated from
`src/lib/ai-orchestrator.ts` and `src/app/api/ai/chat/route.ts`:

* pure TypeScript functions become Lean functions;
* network I/O (provider fetches, the decision-model call, the upstream chat
  completion) is modelled by an explicit environment (`NetEnv`, `RouteEnv`)
  supplying the settled outcome of each call, since the code reads each
  outcome exactly once;
* JavaScript truthiness on optional strings / numeric ids is modelled
  explicitly (`strTruthyO`, `idTruthy`);
* `JSON.parse` is modelled by an executable JSON parser (`jsonParse`)
  returning `none` exactly where `JSON.parse` throws (modulo exotic escapes
  that never occur in the payloads considered here);
* byte streams are modelled as lists of decoded character chunks: the
  `TextDecoder` with `stream:true` buffers partial multi-byte sequences, so
  at the character level it is the identity.

Entity extraction (`extractEntities`, a regex scan) is omitted: nothing in the
repository consumes the `entities` field of an intent result.  Floating-point
configuration fields (`Temperature`) are likewise omitted; no behaviour in
scope depends on them.
-/

/-! ## JavaScript-truthiness helpers -/

/-- Truthiness of an optional JS string: `undefined` and `""` are falsy. -/
def strTruthyO : Option String → Bool
  | none => false
  | some s => !(s == "")

/-- Truthiness of an optional JS number used as an id: `undefined` and `0` are falsy. -/
def idTruthy : Option Int → Bool
  | none => false
  | some v => !(v == 0)

/-- JS `a || b` on an optional string with a string default. -/
def jsOrStr (o : Option String) (d : String) : String :=
  match o with
  | some s => if s == "" then d else s
  | none => d

/-- Substring test on character lists (JS `String.prototype.includes`). -/
def listHasSeg (needle : List Char) : List Char → Bool
  | [] => needle.isEmpty
  | c :: cs => needle.isPrefixOf (c :: cs) || listHasSeg needle cs

/-- JS `hay.includes(pat)`. -/
def strContains (hay pat : String) : Bool := listHasSeg pat.toList hay.toList

/-- JS whitespace characters relevant to `String.prototype.trim` for the
streams in scope (space, tab, newline, carriage return). -/
def isJsWs (c : Char) : Bool := c == ' ' || c == '\t' || c == '\n' || c == '\r'

/-- JS `String.prototype.trim` on a character list. -/
def jsTrim (l : List Char) : List Char :=
  ((l.dropWhile isJsWs).reverse.dropWhile isJsWs).reverse

/-! ## Data model (`ai-orchestrator.ts` interfaces) -/

/-- Media kinds; `VideoContext.type` only uses `movie`/`tv`, the intent
classifier additionally produces `variety`/`anime`. -/
inductive MediaType where
  | movie | tv | variety | anime
deriving DecidableEq, Repr

/-- The string the code uses for a media kind (Douban `kind` parameter). -/
def mediaTypeStr : MediaType → String
  | .movie => "movie"
  | .tv => "tv"
  | .variety => "variety"
  | .anime => "anime"

/-- `VideoContext` from `ai-orchestrator.ts`. -/
structure VideoContext where
  title : Option String := none
  year : Option String := none
  douban_id : Option Int := none
  tmdb_id : Option Int := none
  type : Option MediaType := none
  currentEpisode : Option Int := none
deriving DecidableEq, Repr

/-- The four intent categories of `IntentAnalysisResult.type`. -/
inductive IntentType where
  | recommendation | query | detail | general
deriving DecidableEq, Repr

/-- `IntentAnalysisResult` (the `entities` field is omitted: it is never read
downstream). -/
structure IntentAnalysisResult where
  type : IntentType
  mediaType : Option MediaType
  genre : Option String
  needWebSearch : Bool
  needDouban : Bool
  needTMDB : Bool
  keywords : List String
deriving DecidableEq, Repr

/-- `DecisionResult` returned by the decision model (parsed JSON cast
unchecked in the source; absent boolean fields behave as `false`). -/
structure DecisionResult where
  needWebSearch : Bool := false
  needDouban : Bool := false
  needTMDB : Bool := false
  webSearchQuery : Option String := none
  doubanQuery : Option String := none
  reasoning : Option String := none
deriving DecidableEq, Repr

/-! ## Intent classifier (`analyzeIntent`, ai-orchestrator.ts lines 49-117) -/

/-- The time-sensitivity keyword list. -/
def timeKeywords : List String :=
  ["最新", "今年", "2024", "2025", "即将", "上映", "新出",
   "什么时候", "何时", "几时", "播出", "更新", "下一季",
   "第二季", "第三季", "续集", "下季", "下部"]

/-- Recommendation keywords. -/
def recommendKeywords : List String := ["推荐", "有什么", "好看", "值得", "介绍"]

/-- Actor/director keywords. -/
def personKeywords : List String := ["演员", "导演", "主演", "出演", "作品"]

/-- Plot keywords. -/
def plotKeywords : List String := ["讲什么", "剧情", "故事", "内容", "讲的是"]

/-- `analyzeIntent(message, context?)`: pure keyword/rule classifier.
`lowerMessage` is `message.toLowerCase()`; it only matters for the
`includes('这部')` test, on which lower-casing is the identity. -/
def analyzeIntent (message : String) (context : Option VideoContext) :
    IntentAnalysisResult :=
  let lowerMessage := String.mk (message.toList.map Char.toLower)
  let hasTimeKeyword := timeKeywords.any (fun k => strContains message k)
  let isRecommendation := recommendKeywords.any (fun k => strContains message k)
  let isPerson := personKeywords.any (fun k => strContains message k)
  let isPlotQuery := plotKeywords.any (fun k => strContains message k)
  let mediaType : Option MediaType :=
    if strContains message "电影" then some .movie
    else if strContains message "电视剧" || strContains message "剧集" then some .tv
    else if strContains message "综艺" then some .variety
    else if strContains message "动漫" || strContains message "动画" then some .anime
    else context.bind (·.type)
  let type : IntentType :=
    if isRecommendation then .recommendation
    else if strTruthyO (context.bind (·.title)) &&
            (isPlotQuery || strContains lowerMessage "这部") then .detail
    else if isPerson || hasTimeKeyword then .query
    else .general
  let needWebSearch :=
    hasTimeKeyword || isPerson || strContains message "新闻" ||
    (isRecommendation && hasTimeKeyword) || type == .query
  let needDouban :=
    isRecommendation || type == .detail ||
    (match context.bind (·.douban_id) with
     | some v => decide (v > 0)
     | none => false)
  let needTMDB :=
    type == .detail ||
    (match context.bind (·.tmdb_id) with
     | some v => decide (v > 0)
     | none => false)
  { type := type
    mediaType := mediaType
    genre := none
    needWebSearch := needWebSearch
    needDouban := needDouban
    needTMDB := needTMDB
    keywords := timeKeywords.filter (fun k => strContains message k) }

/-! ## JSON values and `JSON.parse` -/

/-- JSON values; numbers keep their lexeme (no claim computes with them). -/
inductive Json where
  | null
  | bool (b : Bool)
  | num (lexeme : String)
  | str (s : String)
  | arr (elems : List Json)
  | obj (fields : List (String × Json))

/-- The `\x7b` character. -/
def lbrace : Char := Char.ofNat 123

/-- The `\x7d` character. -/
def rbrace : Char := Char.ofNat 125

/-- Skip JSON whitespace. -/
def skipWs (l : List Char) : List Char := l.dropWhile isJsWs

/-- Single-character JSON string escapes. -/
def escChar (c : Char) : Option Char :=
  if c = '"' then some '"'
  else if c = '\\' then some '\\'
  else if c = '/' then some '/'
  else if c = 'n' then some '\n'
  else if c = 't' then some '\t'
  else if c = 'r' then some '\r'
  else if c = 'b' then some (Char.ofNat 8)
  else if c = 'f' then some (Char.ofNat 12)
  else none

/-- Hexadecimal digit value (by code point: digits, then lowercase, then
uppercase letters). -/
def hexVal (c : Char) : Option Nat :=
  let n := c.toNat
  if 48 ≤ n && n ≤ 57 then some (n - 48)
  else if 97 ≤ n && n ≤ 102 then some (n - 87)
  else if 65 ≤ n && n ≤ 70 then some (n - 55)
  else none

/-- Parse the body of a JSON string (after the opening quote); raw control
characters are rejected, as by `JSON.parse`. -/
def parseJsonStrChars : Nat → List Char → Option (List Char × List Char)
  | 0, _ => none
  | _, [] => none
  | fuel + 1, c :: rest =>
    if c = '"' then some ([], rest)
    else if c = '\\' then
      match rest with
      | [] => none
      | e :: rest2 =>
        if e = 'u' then
          match rest2 with
          | h1 :: h2 :: h3 :: h4 :: rest3 =>
            match ([h1, h2, h3, h4].mapM hexVal) with
            | some ds =>
              match parseJsonStrChars fuel rest3 with
              | some (s, r) =>
                some (Char.ofNat (ds.foldl (fun acc d => acc * 16 + d) 0) :: s, r)
              | none => none
            | none => none
          | _ => none
        else
          match escChar e with
          | some ch =>
            match parseJsonStrChars fuel rest2 with
            | some (s, r) => some (ch :: s, r)
            | none => none
          | none => none
    else if c.toNat < 32 then none
    else
      match parseJsonStrChars fuel rest with
      | some (s, r) => some (c :: s, r)
      | none => none

/-- Parse a JSON number lexeme (strictness about leading zeros arises from
consuming a single `0`: any following digit becomes trailing garbage). -/
def parseJsonNum (cs : List Char) : Option (List Char × List Char) :=
  let (sign, cs1) :=
    match cs with
    | '-' :: r => (['-'], r)
    | _ => (([] : List Char), cs)
  match cs1 with
  | c :: rest =>
    if c = '0' ∨ ¬ c.isDigit then
      if c = '0' then
        let (frac, cs2) := jsonNumTail rest
        some (sign ++ ['0'] ++ frac, cs2)
      else none
    else
      let intRest := rest.takeWhile Char.isDigit
      let cs2 := rest.dropWhile Char.isDigit
      let (frac, cs3) := jsonNumTail cs2
      some (sign ++ (c :: intRest) ++ frac, cs3)
  | [] => none
where
  /-- Optional fraction and exponent. -/
  jsonNumTail (cs : List Char) : List Char × List Char :=
    let (frac, cs2) :=
      match cs with
      | '.' :: r =>
        let ds := r.takeWhile Char.isDigit
        if ds.isEmpty then (([] : List Char), cs)
        else ('.' :: ds, r.dropWhile Char.isDigit)
      | _ => ([], cs)
    let (ex, cs3) :=
      match cs2 with
      | e :: r =>
        if e = 'e' ∨ e = 'E' then
          let (sgn, r2) :=
            match r with
            | '+' :: r3 => (['+'], r3)
            | '-' :: r3 => (['-'], r3)
            | _ => (([] : List Char), r)
          let ds := r2.takeWhile Char.isDigit
          if ds.isEmpty then (([] : List Char), cs2)
          else (e :: (sgn ++ ds), r2.dropWhile Char.isDigit)
        else ([], cs2)
      | [] => ([], cs2)
    (frac ++ ex, cs3)

mutual

/-- Parse one JSON value. -/
def parseJsonVal : Nat → List Char → Option (Json × List Char)
  | 0, _ => none
  | fuel + 1, cs =>
    match skipWs cs with
    | [] => none
    | c :: rest =>
      if c = '"' then
        match parseJsonStrChars (fuel + 1) rest with
        | some (s, r) => some (.str (String.mk s), r)
        | none => none
      else if c = 't' then
        if ['r', 'u', 'e'].isPrefixOf rest then some (.bool true, rest.drop 3) else none
      else if c = 'f' then
        if ['a', 'l', 's', 'e'].isPrefixOf rest then some (.bool false, rest.drop 4) else none
      else if c = 'n' then
        if ['u', 'l', 'l'].isPrefixOf rest then some (.null, rest.drop 3) else none
      else if c = '[' then
        match skipWs rest with
        | ']' :: r2 => some (.arr [], r2)
        | _ =>
          match parseJsonArrItems fuel rest with
          | some (es, r2) => some (.arr es, r2)
          | none => none
      else if c = lbrace then
        match skipWs rest with
        | c2 :: r2 =>
          if c2 = rbrace then some (.obj [], r2)
          else
            match parseJsonObjItems fuel rest with
            | some (fs, r3) => some (.obj fs, r3)
            | none => none
        | [] => none
      else if c = '-' ∨ c.isDigit then
        match parseJsonNum (c :: rest) with
        | some (lex, r) => some (.num (String.mk lex), r)
        | none => none
      else none

/-- Parse `value (, value)* ]`. -/
def parseJsonArrItems : Nat → List Char → Option (List Json × List Char)
  | 0, _ => none
  | fuel + 1, cs =>
    match parseJsonVal fuel cs with
    | none => none
    | some (v, r) =>
      match skipWs r with
      | ',' :: r2 =>
        match parseJsonArrItems fuel r2 with
        | some (vs, r3) => some (v :: vs, r3)
        | none => none
      | ']' :: r2 => some ([v], r2)
      | _ => none

/-- Parse `"key" : value (, "key" : value)* \x7d`. -/
def parseJsonObjItems : Nat → List Char → Option (List (String × Json) × List Char)
  | 0, _ => none
  | fuel + 1, cs =>
    match skipWs cs with
    | [] => none
    | c :: r =>
      if c = '"' then
        match parseJsonStrChars (fuel + 1) r with
        | some (k, r1) =>
          match skipWs r1 with
          | ':' :: r2 =>
            match parseJsonVal fuel r2 with
            | some (v, r3) =>
              match skipWs r3 with
              | ',' :: r4 =>
                match parseJsonObjItems fuel r4 with
                | some (kvs, r5) => some ((String.mk k, v) :: kvs, r5)
                | none => none
              | c2 :: r4 =>
                if c2 = rbrace then some ([(String.mk k, v)], r4) else none
              | [] => none
            | none => none
          | _ => none
        | none => none
      else none

end

/-- `JSON.parse` on a character list: one value, then only whitespace. -/
def jsonParse (cs : List Char) : Option Json :=
  match parseJsonVal (cs.length + 8) cs with
  | some (j, rest) => if (skipWs rest).isEmpty then some j else none
  | none => none

/-- Field access `j.k` (`undefined` unless `j` is an object with the field;
objects produced by `JSON.parse` in scope have no duplicate keys). -/
def jsGetField (j : Json) (k : String) : Option Json :=
  match j with
  | .obj fs => (fs.find? (fun kv => kv.1 == k)).map (·.2)
  | _ => none

/-! ## Chat stream transformer (`transformToSSE`, route.ts lines 105-175)

The upstream `ReadableStream` is modelled as the list of chunks successively
returned by `reader.read()`, each decoded to characters.  The transformer's
output is modelled as the ordered list of events it enqueues. -/

/-- The provider argument of `transformToSSE`. -/
inductive LLMProvider where
  | openai | claude | custom
deriving DecidableEq, Repr

/-- A normalized output event: one `data: {"text": ...}` block, or the
`data: [DONE]` sentinel block. -/
inductive SSEEvent where
  | text (s : String)
  | done
deriving DecidableEq, Repr

/-- `chunk.split('\n')` on a character list. -/
def splitOnNl : List Char → List (List Char)
  | [] => [[]]
  | c :: cs =>
    if c = '\n' then [] :: splitOnNl cs
    else
      match splitOnNl cs with
      | [] => [[c]]
      | l :: ls => (c :: l) :: ls

/-- OpenAI-format delta extraction: `json.choices?.[0]?.delta?.content || ''`
(a non-string `content`, which no provider in scope emits, is treated as
absent). -/
def extractOpenAI (j : Json) : String :=
  match jsGetField j "choices" with
  | some (.arr (c0 :: _)) =>
    match jsGetField c0 "delta" with
    | some d =>
      match jsGetField d "content" with
      | some (.str s) => s
      | _ => ""
    | none => ""
  | _ => ""

/-- Claude-format delta extraction: text only for `content_block_delta`
events, via `json.delta?.text || ''`. -/
def extractClaude (j : Json) : String :=
  match jsGetField j "type" with
  | some (.str t) =>
    if t == "content_block_delta" then
      match jsGetField j "delta" with
      | some d =>
        match jsGetField d "text" with
        | some (.str s) => s
        | _ => ""
      | none => ""
    else ""
  | _ => ""

/-- Per-provider delta extraction (`claude` branch vs the OpenAI-format
`else` branch). -/
def extractText (p : LLMProvider) (j : Json) : String :=
  match p with
  | .claude => extractClaude j
  | _ => extractOpenAI j

/-- The `data: ` prefix. -/
def dataPrefixChars : List Char := "data: ".toList

/-- Events enqueued for one (non-blank) line of an upstream chunk. -/
def lineEvents (p : LLMProvider) (line : List Char) : List SSEEvent :=
  if dataPrefixChars.isPrefixOf line then
    let data := jsTrim (line.drop 6)
    if data.isEmpty then []
    else if data == "[DONE]".toList then [.done]
    else
      match jsonParse data with
      | some j =>
        let t := extractText p j
        if t == "" then [] else [.text t]
      | none => []
  else []

/-- Events enqueued for one chunk returned by `reader.read()`: split on
newlines, discard blank lines, process each line in order. -/
def processChunk (p : LLMProvider) (chunk : List Char) : List SSEEvent :=
  ((splitOnNl chunk).filter (fun l => !(jsTrim l).isEmpty)).flatMap (lineEvents p)

/-- The whole transformer: chunks are processed strictly in order, with no
state carried from one chunk to the next. -/
def transformToSSE (p : LLMProvider) (chunks : List (List Char)) : List SSEEvent :=
  chunks.flatMap (processChunk p)

/-! ## Orchestrator configuration and network environment -/

/-- Web-search providers. -/
inductive WSProvider where
  | tavily | serper | serpapi
deriving DecidableEq, Repr

/-- Decision-model providers. -/
inductive DProvider where
  | openai | claude | custom
deriving DecidableEq, Repr

/-- The `config` parameter of `orchestrateDataSources`. -/
structure OrchConfig where
  enableWebSearch : Bool := false
  webSearchProvider : Option WSProvider := none
  tavilyApiKey : Option String := none
  serperApiKey : Option String := none
  serpApiKey : Option String := none
  tmdbApiKey : Option String := none
  tmdbProxy : Option String := none
  enableDecisionModel : Bool := false
  decisionProvider : Option DProvider := none
  decisionApiKey : Option String := none
  decisionBaseURL : Option String := none
  decisionModel : Option String := none
deriving DecidableEq, Repr

/-- The settled outcome of one pushed provider promise, as observed by
`Promise.allSettled`.  The adapters in the source catch their own errors and
resolve with data or `null` (`fulfilled none`); `rejected` is nevertheless
modelled because the fan-in code handles it. -/
inductive PSettled where
  | fulfilled (value : Option Json)
  | rejected

/-- `result.value` when fulfilled, otherwise the field keeps its `null`. -/
def settledValue : PSettled → Option Json
  | .fulfilled v => v
  | .rejected => none

/-- Network oracle for one orchestration: the decision-model call outcome
(`none` models every failure path of `callDecisionModel`, which returns
`null` on error) and the settled outcome each provider promise would have. -/
structure NetEnv where
  decision : Option DecisionResult := none
  ws : PSettled := .fulfilled none
  douban : PSettled := .fulfilled none
  tmdb : PSettled := .fulfilled none

/-- Gate for using the decision model (ai-orchestrator.ts line 530):
`config?.enableDecisionModel && config.decisionProvider &&
config.decisionApiKey && config.decisionModel`. -/
def decisionGate (cfg : Option OrchConfig) : Bool :=
  match cfg with
  | some c =>
    c.enableDecisionModel && c.decisionProvider.isSome &&
    strTruthyO c.decisionApiKey && strTruthyO c.decisionModel
  | none => false

/-- Availability of web search as computed for the decision model
(lines 534-540). -/
def hasWebSearchProvider (c : OrchConfig) : Bool :=
  c.enableWebSearch && c.webSearchProvider.isSome &&
  (((c.webSearchProvider == some .tavily) && strTruthyO c.tavilyApiKey) ||
   ((c.webSearchProvider == some .serper) && strTruthyO c.serperApiKey) ||
   ((c.webSearchProvider == some .serpapi) && strTruthyO c.serpApiKey))

/-- Availability of TMDB as computed for the decision model (line 542). -/
def hasTMDB (c : OrchConfig) : Bool := strTruthyO c.tmdbApiKey

/-- The decision result actually in effect after step 1: the decision-model
outcome when the gate passes, else `null`. -/
def resolvedDecision (cfg : Option OrchConfig) (env : NetEnv) : Option DecisionResult :=
  if decisionGate cfg then env.decision else none

/-- The intent shape used by the rest of the pipeline, including the
decision-optimized query strings stashed on it (lines 574-586). -/
structure ResolvedIntent where
  type : IntentType
  mediaType : Option MediaType
  genre : Option String
  needWebSearch : Bool
  needDouban : Bool
  needTMDB : Bool
  keywords : List String
  optimizedWebSearchQuery : Option String
  optimizedDoubanQuery : Option String
deriving DecidableEq, Repr

/-- A classifier result carried unchanged into the resolved shape. -/
def toResolvedIntent (i : IntentAnalysisResult) : ResolvedIntent :=
  { type := i.type, mediaType := i.mediaType, genre := i.genre
    needWebSearch := i.needWebSearch, needDouban := i.needDouban
    needTMDB := i.needTMDB, keywords := i.keywords
    optimizedWebSearchQuery := none, optimizedDoubanQuery := none }

/-- Steps 1-2 of `orchestrateDataSources`: fall back to `analyzeIntent` when
the decision is `null`, else convert the decision (lines 563-587). -/
def resolveIntent (decision : Option DecisionResult) (userMessage : String)
    (context : Option VideoContext) : ResolvedIntent :=
  match decision with
  | none => toResolvedIntent (analyzeIntent userMessage context)
  | some d =>
    { type :=
        if d.needDouban && !d.needWebSearch then .detail
        else if d.needWebSearch then .query
        else .general
      mediaType := context.bind (·.type)
      genre := none
      needWebSearch := d.needWebSearch
      needDouban := d.needDouban
      needTMDB := d.needTMDB
      keywords := if strTruthyO d.webSearchQuery then [d.webSearchQuery.getD ""] else []
      optimizedWebSearchQuery := d.webSearchQuery
      optimizedDoubanQuery := d.doubanQuery }

/-- The intent in effect for a given orchestration. -/
def resolvedIntentD (msg : String) (ctx : Option VideoContext)
    (cfg : Option OrchConfig) (env : NetEnv) : ResolvedIntent :=
  resolveIntent (resolvedDecision cfg env) msg ctx

/-- Key selection for the configured web-search provider (lines 603-608);
`serpapi` is the final `else` branch of the ternary. -/
def wsApiKey (c : OrchConfig) (p : WSProvider) : Option String :=
  match p with
  | .tavily => c.tavilyApiKey
  | .serper => c.serperApiKey
  | .serpapi => c.serpApiKey

/-- Whether the web-search promise is created and pushed (lines 597-616):
needs the flag, `config?.enableWebSearch`, a provider, and a truthy key. -/
def wsStartedD (msg : String) (ctx : Option VideoContext)
    (cfg : Option OrchConfig) (env : NetEnv) : Bool :=
  (resolvedIntentD msg ctx cfg env).needWebSearch &&
  (match cfg with
   | some c =>
     c.enableWebSearch &&
     (match c.webSearchProvider with
      | some p => strTruthyO (wsApiKey c p)
      | none => false)
   | none => false)

/-- The params record passed to `fetchDoubanData`. -/
structure DoubanParams where
  id : Option Int := none
  query : Option String := none
  kind : Option String := none
  category : Option String := none
  type : Option String := none
deriving DecidableEq, Repr

/-- Which `fetchDoubanData` call (if any) the orchestrator creates
(lines 619-644). -/
def doubanChoiceD (intent : ResolvedIntent) (ctx : Option VideoContext) :
    Option DoubanParams :=
  if !intent.needDouban then none
  else if idTruthy (ctx.bind (·.douban_id)) then
    some { id := ctx.bind (·.douban_id) }
  else if intent.type == .recommendation then
    some { kind := some ((intent.mediaType.map mediaTypeStr).getD "movie")
           category := some "热门"
           type := some (jsOrStr intent.genre "全部") }
  else if strTruthyO intent.optimizedDoubanQuery then
    some { query := intent.optimizedDoubanQuery
           kind :=
             match intent.mediaType with
             | some m => some (mediaTypeStr m)
             | none => (ctx.bind (·.type)).map mediaTypeStr }
  else if strTruthyO (ctx.bind (·.title)) then
    some { query := ctx.bind (·.title)
           kind := (ctx.bind (·.type)).map mediaTypeStr }
  else none

/-- Whether the Douban promise is created and pushed. -/
def dbStartedD (msg : String) (ctx : Option VideoContext)
    (cfg : Option OrchConfig) (env : NetEnv) : Bool :=
  (doubanChoiceD (resolvedIntentD msg ctx cfg env) ctx).isSome

/-- Whether the TMDB promise is created and pushed (line 647):
`intent.needTMDB && context?.tmdb_id && context?.type`. -/
def tmdbStartedD (msg : String) (ctx : Option VideoContext)
    (cfg : Option OrchConfig) (env : NetEnv) : Bool :=
  (resolvedIntentD msg ctx cfg env).needTMDB &&
  idTruthy (ctx.bind (·.tmdb_id)) && (ctx.bind (·.type)).isSome

/-- Whether `fetchDoubanData` reaches an HTTP request: one of its three
parameter shapes must be truthy (ai-orchestrator.ts lines 210-234). -/
def fetchDoubanIssuesHttp (p : DoubanParams) : Bool :=
  if idTruthy p.id then true
  else if strTruthyO p.kind && strTruthyO p.category && strTruthyO p.type then true
  else if strTruthyO p.query then true
  else false

/-- Whether `fetchTMDBData` reaches an HTTP request: it returns `null`
before fetching when the key is missing or params are incomplete
(lines 253-279). -/
def fetchTMDBIssuesHttp (key : Option String) (id : Option Int)
    (ty : Option MediaType) : Bool :=
  strTruthyO key && idTruthy id && ty.isSome

/-- An HTTP request to the web-search provider is issued iff the promise is
started: every branch of `fetchWebSearch` fetches immediately. -/
def wsHttpIssuedD (msg : String) (ctx : Option VideoContext)
    (cfg : Option OrchConfig) (env : NetEnv) : Bool :=
  wsStartedD msg ctx cfg env

/-- An HTTP request to Douban is issued iff a started call has usable
params. -/
def dbHttpIssuedD (msg : String) (ctx : Option VideoContext)
    (cfg : Option OrchConfig) (env : NetEnv) : Bool :=
  match doubanChoiceD (resolvedIntentD msg ctx cfg env) ctx with
  | some p => fetchDoubanIssuesHttp p
  | none => false

/-- An HTTP request to TMDB is issued iff the promise was started and
`fetchTMDBData`'s own guards pass (in particular a truthy API key). -/
def tmdbHttpIssuedD (msg : String) (ctx : Option VideoContext)
    (cfg : Option OrchConfig) (env : NetEnv) : Bool :=
  tmdbStartedD msg ctx cfg env &&
  fetchTMDBIssuesHttp (cfg.bind (·.tmdbApiKey)) (ctx.bind (·.tmdb_id))
    (ctx.bind (·.type))

/-! ## Prompt assembly (`orchestrateDataSources`, lines 659-803) -/

/-- JS truthiness of a JSON value (numeric truthiness is approximated on the
lexeme; no value in scope is checked for truthiness as a number). -/
def jsTruthy : Json → Bool
  | .null => false
  | .bool b => b
  | .num lex => !(lex == "0")
  | .str s => !(s == "")
  | .arr _ => true
  | .obj _ => true

/-- Truthiness of a possibly-absent JSON value. -/
def jsTruthyO : Option Json → Bool
  | none => false
  | some j => jsTruthy j

/-- Escapes applied by `JSON.stringify` inside string literals. -/
def jsonEscapeChar (c : Char) : List Char :=
  if c = '"' then ['\\', '"']
  else if c = '\\' then ['\\', '\\']
  else if c = '\n' then ['\\', 'n']
  else if c = '\t' then ['\\', 't']
  else if c = '\r' then ['\\', 'r']
  else [c]

mutual

/-- `JSON.stringify` (modelled without the 2-space pretty-printing
indentation the source requests; no claim depends on the rendered text). -/
def jsonStringify : Json → String
  | .null => "null"
  | .bool b => if b then "true" else "false"
  | .num lex => lex
  | .str s => "\"" ++ String.mk (s.toList.flatMap jsonEscapeChar) ++ "\""
  | .arr es => "[" ++ jsonStringifyList es ++ "]"
  | .obj fs => "\x7b" ++ jsonStringifyFields fs ++ "\x7d"

/-- Comma-separated array elements. -/
def jsonStringifyList : List Json → String
  | [] => ""
  | [j] => jsonStringify j
  | j :: rest => jsonStringify j ++ "," ++ jsonStringifyList rest

/-- Comma-separated object fields. -/
def jsonStringifyFields : List (String × Json) → String
  | [] => ""
  | [(k, v)] => "\"" ++ k ++ "\":" ++ jsonStringify v
  | (k, v) :: rest => "\"" ++ k ++ "\":" ++ jsonStringify v ++ "," ++ jsonStringifyFields rest

end

/-- JS template-literal interpolation `String(x)` for the provider result
fields (arrays are approximated by their element list; objects display as
`[object Object]`). -/
def jsDisplay : Option Json → String
  | none => "undefined"
  | some .null => "null"
  | some (.bool b) => if b then "true" else "false"
  | some (.num lex) => lex
  | some (.str s) => s
  | some (.arr es) => jsonStringifyList es
  | some (.obj _) => "[object Object]"

/-- `formatSearchResults(results, provider)` (lines 296-339): only an array
under the provider-specific field yields text; any exception inside (e.g. a
truthy non-array) is caught and yields `''`. -/
def formatSearchResults (results : Json) (p : WSProvider) : String :=
  match p with
  | .tavily =>
    match jsGetField results "results" with
    | some (.arr rs) =>
      String.intercalate "\n" (rs.map (fun r =>
        "\n标题: " ++ jsDisplay (jsGetField r "title") ++
        "\n内容: " ++ jsDisplay (jsGetField r "content") ++
        "\n来源: " ++ jsDisplay (jsGetField r "url") ++ "\n"))
    | _ => ""
  | .serper =>
    match jsGetField results "organic" with
    | some (.arr rs) =>
      String.intercalate "\n" (rs.map (fun r =>
        "\n标题: " ++ jsDisplay (jsGetField r "title") ++
        "\n摘要: " ++ jsDisplay (jsGetField r "snippet") ++
        "\n来源: " ++ jsDisplay (jsGetField r "link") ++ "\n"))
    | _ => ""
  | .serpapi =>
    match jsGetField results "organic_results" with
    | some (.arr rs) =>
      String.intercalate "\n" (rs.map (fun r =>
        "\n标题: " ++ jsDisplay (jsGetField r "title") ++
        "\n摘要: " ++ jsDisplay (jsGetField r "snippet") ++
        "\n来源: " ++ jsDisplay (jsGetField r "link") ++ "\n"))
    | _ => ""

/-- Projection `\x7bkey: j.key, ...\x7d` keeping only fields present on `j`
(`JSON.stringify` drops keys whose value is `undefined`). -/
def pickFields (j : Json) (keys : List String) : List (String × Json) :=
  keys.filterMap (fun k => (jsGetField j k).map (fun v => (k, v)))

/-- The curated object serialized for a Douban list item (lines 719-726). -/
def pickDoubanListItem (item : Json) : Json :=
  .obj (pickFields item ["title", "rating", "year", "genres", "directors", "actors"])

/-- The curated object serialized for Douban detail data (lines 740-749);
`reviews?.slice(0, 2)` keeps at most two reviews and is omitted unless the
field is an array. -/
def pickDoubanDetail (j : Json) : Json :=
  .obj (pickFields j ["title", "rating", "year", "genres", "directors", "actors", "intro"] ++
    (match jsGetField j "reviews" with
     | some (.arr rs) => [("reviews", Json.arr (rs.take 2))]
     | _ => []))

/-- JS `a || b` on possibly-absent JSON values. -/
def jsOrJson (a b : Option Json) : Option Json :=
  match a with
  | some v => if jsTruthy v then some v else b
  | none => b

/-- The curated object serialized for TMDB data (lines 760-771). -/
def pickTmdb (j : Json) : Json :=
  .obj ((match jsOrJson (jsGetField j "title") (jsGetField j "name") with
         | some v => [("title", v)]
         | none => []) ++
        pickFields j ["overview", "vote_average", "genres", "keywords"] ++
        (match jsGetField j "similar" with
         | some (.arr l) => [("similar", Json.arr (l.take 5))]
         | _ => []))

/-- The fixed opening of the system prompt (lines 687-700). -/
def promptPreamble : String :=
  "你是 MoonTVPlus 的 AI 影视助手，专门帮助用户发现和了解影视内容。\n\n## 你的能力\n- 提供影视推荐（基于豆瓣热门榜单和TMDB数据）\n- 回答影视相关问题（剧情、演员、评分等）\n- 搜索最新影视资讯（如果启用了联网搜索）\n\n## 回复要求\n1. 语言风格：友好、专业、简洁\n2. 信息来源：优先使用提供的数据，诚实告知数据不足\n3. 推荐理由：说明为什么值得看，包括评分、类型、特色等\n4. 格式清晰：使用分段、列表等让内容易读\n\n"

/-- The fixed closing source-priority section (lines 786-793). -/
def promptClosing : String :=
  "\n## 数据来源优先级\n1. 如果有联网搜索结果，优先使用其最新信息\n2. 豆瓣数据提供中文评价和评分（更适合中文用户）\n3. TMDB数据更国际化，提供关键词和相似推荐\n4. 如果多个数据源有冲突，以联网搜索为准\n5. 如果数据不足以回答问题，诚实告知用户\n\n现在请回答用户的问题。"

/-- The web-search block appended when search data is truthy, a provider is
configured and formatting yields text (lines 703-711). -/
def webSearchSection (wsData : Option Json) (cfg : Option OrchConfig) : String :=
  match wsData, cfg.bind (·.webSearchProvider) with
  | some j, some p =>
    if jsTruthy j then
      let formatted := formatSearchResults j p
      if formatted == "" then ""
      else "\n## 【联网搜索结果】（最新实时信息）\n" ++ formatted ++ "\n"
    else ""
  | _, _ => ""

/-- The Douban block (lines 714-755); a truthy non-array `list`/`items`
field would throw in the source and is outside the provider shapes, so the
array branches require arrays. -/
def doubanSection (dbData : Option Json) : String :=
  match dbData with
  | some j =>
    if jsTruthy j then
      "\n## 【豆瓣数据】（权威中文评分和信息）\n" ++
      (match jsGetField j "list" with
       | some (.arr l) =>
         "推荐列表（" ++ toString l.length ++ "部）:\n" ++
         jsonStringify (.arr ((l.take 10).map pickDoubanListItem)) ++ "\n"
       | _ =>
         match jsGetField j "items" with
         | some (.arr items) =>
           "搜索结果:\n" ++ jsonStringify (.arr (items.take 5)) ++ "\n"
         | _ => jsonStringify (pickDoubanDetail j) ++ "\n")
    else ""
  | none => ""

/-- The TMDB block (lines 758-773). -/
def tmdbSection (tmdbData : Option Json) : String :=
  match tmdbData with
  | some j =>
    if jsTruthy j then
      "\n## 【TMDB数据】（国际数据和详细元信息）\n" ++ jsonStringify (pickTmdb j) ++ "\n"
    else ""
  | none => ""

/-- The current-video-context block, present only for a truthy
`context.title` (lines 776-784). -/
def contextSection (ctx : Option VideoContext) : String :=
  match ctx with
  | some c =>
    if strTruthyO c.title then
      "\n## 【当前视频上下文】\n" ++ "用户正在浏览: " ++ c.title.getD "" ++
      (if strTruthyO c.year then " (" ++ c.year.getD "" ++ ")" else "") ++
      (if idTruthy c.currentEpisode then
        "，当前第 " ++ toString (c.currentEpisode.getD 0) ++ " 集"
       else "") ++ "\n"
    else ""
  | none => ""

/-- `orchestrateDataSources` return shape. -/
structure OrchestrationResult where
  systemPrompt : String
  webSearchResults : Option Json
  doubanData : Option Json
  tmdbData : Option Json

/-- The three per-source variables read out of `Promise.allSettled`. -/
structure FanInResult where
  ws : Option Json
  douban : Option Json
  tmdb : Option Json

/-- The all-settled fan-in (lines 660-684): started promises are pushed in
the order web search, Douban, TMDB, and read back with a running
`resultIndex` in the same order; rejected outcomes leave the field `null`. -/
def fanIn (wsS dbS tmS : Bool) (pws pdb ptm : PSettled) : FanInResult :=
  let results : List PSettled :=
    (if wsS then [pws] else []) ++ (if dbS then [pdb] else []) ++
    (if tmS then [ptm] else [])
  let w := if wsS then settledValue (results.getD 0 .rejected) else none
  let i1 : Nat := if wsS then 1 else 0
  let d := if dbS then settledValue (results.getD i1 .rejected) else none
  let i2 : Nat := if dbS then i1 + 1 else i1
  let t := if tmS then settledValue (results.getD i2 .rejected) else none
  { ws := w, douban := d, tmdb := t }

/-- The fan-in outcome of one orchestration. -/
def fanInOf (msg : String) (ctx : Option VideoContext) (cfg : Option OrchConfig)
    (env : NetEnv) : FanInResult :=
  fanIn (wsStartedD msg ctx cfg env) (dbStartedD msg ctx cfg env)
    (tmdbStartedD msg ctx cfg env) env.ws env.douban env.tmdb

/-- Step 4: the system prompt is the preamble, the three conditional data
sections, the conditional context section, and the fixed closing. -/
def buildPrompt (f : FanInResult) (ctx : Option VideoContext)
    (cfg : Option OrchConfig) : String :=
  promptPreamble ++ webSearchSection f.ws cfg ++ doubanSection f.douban ++
    tmdbSection f.tmdb ++ contextSection ctx ++ promptClosing

/-- The main coordinator `orchestrateDataSources(userMessage, context?,
config?)`, with network outcomes supplied by `env`. -/
def orchestrateDataSources (msg : String) (ctx : Option VideoContext)
    (cfg : Option OrchConfig) (env : NetEnv) : OrchestrationResult :=
  { systemPrompt := buildPrompt (fanInOf msg ctx cfg env) ctx cfg
    webSearchResults := (fanInOf msg ctx cfg env).ws
    doubanData := (fanInOf msg ctx cfg env).douban
    tmdbData := (fanInOf msg ctx cfg env).tmdb }

/-! ## Chat endpoint (`POST`, route.ts lines 177-304)

The endpoint is modelled up to the point where a response is chosen; the
observable outcome is the HTTP status, whether `orchestrateDataSources` was
invoked, and which provider HTTP requests that orchestration issued. -/

/-- User roles as stored by the user database. -/
inductive Role where
  | owner | admin | user
deriving DecidableEq, Repr

/-- The part of `db.getUserInfoV2` the endpoint reads. -/
structure UserInfoM where
  role : Role
  banned : Bool
deriving DecidableEq, Repr

/-- The fields of `adminConfig.AIConfig` the endpoint reads (the
floating-point `Temperature`/`MaxTokens` knobs only shape the upstream chat
request body and are omitted). -/
structure AIConfigM where
  Enabled : Bool := false
  AllowRegularUsers : Bool := false
  EnableWebSearch : Bool := false
  WebSearchProvider : Option WSProvider := none
  TavilyApiKey : Option String := none
  SerperApiKey : Option String := none
  SerpApiKey : Option String := none
  EnableDecisionModel : Bool := false
  CustomApiKey : Option String := none
  CustomBaseURL : Option String := none
  CustomModel : Option String := none
  DecisionCustomModel : Option String := none
  SystemPrompt : Option String := none
deriving DecidableEq, Repr

/-- The slice of `adminConfig` the endpoint reads. -/
structure AdminConfigM where
  AIConfig : Option AIConfigM := none
  siteTMDBApiKey : Option String := none
  siteTMDBProxy : Option String := none
deriving DecidableEq, Repr

/-- The parsed request body (`history` only extends the upstream message
list and is omitted). -/
structure BodyM where
  message : Option String := none
  context : Option VideoContext := none

/-- One request's environment: cookie auth (`authInfo?.username`), the
configuration snapshot, `process.env.USERNAME`, the user-database lookup,
the body parse outcome (`none` models `request.json()` throwing), the
orchestration network oracle, and whether the upstream chat call succeeds. -/
structure RouteEnv where
  auth : Option String := none
  adminConfig : AdminConfigM := {}
  envUsername : Option String := none
  userInfo : Option UserInfoM := none
  body : Option BodyM := none
  net : NetEnv := {}
  chatOk : Bool := true

/-- The observable outcome of one `POST` invocation. -/
structure PostOutcome where
  status : Nat
  orchestrated : Bool
  wsCalled : Bool
  dbCalled : Bool
  tmdbCalled : Bool
deriving DecidableEq, Repr

/-- Role gate body (lines 200-209): the user record is missing, not
admin/owner, or banned. -/
def roleBad : Option UserInfoM → Bool
  | none => true
  | some u => ((u.role != .admin) && (u.role != .owner)) || u.banned

/-- The orchestrator config the endpoint builds (lines 233-248): the
decision model is hardcoded to the `custom` provider reusing the main
chat model's key and base URL. -/
def routeOrchConfig (ai : AIConfigM) (tmdbKey tmdbProxy : Option String) :
    OrchConfig :=
  { enableWebSearch := ai.EnableWebSearch
    webSearchProvider := ai.WebSearchProvider
    tavilyApiKey := ai.TavilyApiKey
    serperApiKey := ai.SerperApiKey
    serpApiKey := ai.SerpApiKey
    tmdbApiKey := tmdbKey
    tmdbProxy := tmdbProxy
    enableDecisionModel := ai.EnableDecisionModel
    decisionProvider := some .custom
    decisionApiKey := ai.CustomApiKey
    decisionBaseURL := ai.CustomBaseURL
    decisionModel := ai.DecisionCustomModel }

/-- The `POST` handler, gate by gate in source order.  Note that the
`CustomApiKey`/`CustomBaseURL` completeness check (line 269) runs only
after `orchestrateDataSources` has been awaited (line 230). -/
def POSTmodel (env : RouteEnv) : PostOutcome :=
  if !strTruthyO env.auth then
    { status := 401, orchestrated := false, wsCalled := false,
      dbCalled := false, tmdbCalled := false }
  else
    match env.adminConfig.AIConfig with
    | none =>
      { status := 400, orchestrated := false, wsCalled := false,
        dbCalled := false, tmdbCalled := false }
    | some ai =>
      if !ai.Enabled then
        { status := 400, orchestrated := false, wsCalled := false,
          dbCalled := false, tmdbCalled := false }
      else if !ai.AllowRegularUsers && (env.envUsername != env.auth) &&
              roleBad env.userInfo then
        { status := 403, orchestrated := false, wsCalled := false,
          dbCalled := false, tmdbCalled := false }
      else
        match env.body with
        | none =>
          { status := 500, orchestrated := false, wsCalled := false,
            dbCalled := false, tmdbCalled := false }
        | some b =>
          if !strTruthyO b.message then
            { status := 400, orchestrated := false, wsCalled := false,
              dbCalled := false, tmdbCalled := false }
          else
            let msg := b.message.getD ""
            let ocfg := some (routeOrchConfig ai env.adminConfig.siteTMDBApiKey
              env.adminConfig.siteTMDBProxy)
            let ws := wsHttpIssuedD msg b.context ocfg env.net
            let db := dbHttpIssuedD msg b.context ocfg env.net
            let tm := tmdbHttpIssuedD msg b.context ocfg env.net
            if !strTruthyO ai.CustomApiKey || !strTruthyO ai.CustomBaseURL then
              { status := 400, orchestrated := true, wsCalled := ws,
                dbCalled := db, tmdbCalled := tm }
            else if env.chatOk then
              { status := 200, orchestrated := true, wsCalled := ws,
                dbCalled := db, tmdbCalled := tm }
            else
              { status := 500, orchestrated := true, wsCalled := ws,
                dbCalled := db, tmdbCalled := tm }

/-! ## Derived notions used in the statements below -/

/-- A line whose payload is the `[DONE]` sentinel literal. -/
def isDoneLine (l : List Char) : Bool :=
  dataPrefixChars.isPrefixOf l && (jsTrim (l.drop 6) == "[DONE]".toList)

/-- The non-blank lines of an upstream stream, in order. -/
def linesOf (chunks : List (List Char)) : List (List Char) :=
  chunks.flatMap (fun c => (splitOnNl c).filter (fun l => !(jsTrim l).isEmpty))

/-! ## Helper lemmas -/

theorem splitOnNl_ne_nil (cs : List Char) : splitOnNl cs ≠ [] := by
  induction cs with
  | nil => simp [splitOnNl]
  | cons c cs ih =>
    by_cases hc : c = '\n'
    · simp [splitOnNl, hc]
    · simp only [splitOnNl, hc, if_false]
      rcases h : splitOnNl cs with _ | ⟨l, ls⟩
      · simp
      · simp

theorem splitOnNl_append (a b : List Char) :
    splitOnNl (a ++ '\n' :: b) = splitOnNl a ++ splitOnNl b := by
  induction a with
  | nil => simp [splitOnNl]
  | cons c a ih =>
    by_cases hc : c = '\n'
    · subst hc; simp [splitOnNl, ih]
    · simp only [List.cons_append, splitOnNl, hc, if_false, List.append_eq]
      rw [ih]
      rcases h : splitOnNl a with _ | ⟨l, ls⟩
      · exact absurd h (splitOnNl_ne_nil a)
      · simp

theorem splitOnNl_no_nl (l : List Char) (h : '\n' ∉ l) : splitOnNl l = [l] := by
  induction l with
  | nil => rfl
  | cons c cs ih =>
    have hc : c ≠ '\n' := fun e => h (e ▸ List.mem_cons_self c cs)
    have hcs : '\n' ∉ cs := fun m => h (List.mem_cons_of_mem c m)
    simp [splitOnNl, hc, ih hcs]

theorem processChunk_append (p : LLMProvider) (a b : List Char) :
    processChunk p (a ++ '\n' :: b) = processChunk p a ++ processChunk p b := by
  unfold processChunk
  rw [splitOnNl_append, List.filter_append, List.flatMap_append]

theorem processChunk_nil (p : LLMProvider) : processChunk p [] = [] := by
  simp [processChunk, splitOnNl, jsTrim]

theorem transformToSSE_lines (p : LLMProvider) (chunks : List (List Char)) :
    transformToSSE p chunks = (linesOf chunks).flatMap (lineEvents p) := by
  unfold transformToSSE linesOf processChunk
  rw [List.flatMap_assoc]

theorem lineEvents_count_done (p : LLMProvider) (l : List Char) :
    (lineEvents p l).count SSEEvent.done = if isDoneLine l then 1 else 0 := by
  unfold lineEvents isDoneLine
  by_cases h1 : dataPrefixChars.isPrefixOf l = true
  · simp only [h1, Bool.true_and, if_true]
    by_cases h2 : (jsTrim (l.drop 6) == "[DONE]".toList) = true
    · have h3 : jsTrim (l.drop 6) = "[DONE]".toList := eq_of_beq h2
      rw [h3]
      have e1 : ("[DONE]".toList.isEmpty) = false := by decide
      have e2 : ("[DONE]".toList == "[DONE]".toList) = true := by decide
      simp [e1, e2]
    · have hb : (jsTrim (l.drop 6) == "[DONE]".toList) = false := by
        cases hx : (jsTrim (l.drop 6) == "[DONE]".toList)
        · rfl
        · exact absurd hx h2
      by_cases h5 : (jsTrim (l.drop 6)).isEmpty = true
      · have h5c : jsTrim (l.drop 6) = [] := by
          rcases hx : jsTrim (l.drop 6) with _ | ⟨a, b⟩
          · rfl
          · rw [hx] at h5; simp at h5
        simp [h5c]
      · have h5b : (jsTrim (l.drop 6)).isEmpty = false := by
          cases hx : (jsTrim (l.drop 6)).isEmpty
          · rfl
          · exact absurd hx h5
        simp only [h5b, hb, if_false, Bool.false_eq_true]
        rcases jsonParse (jsTrim (l.drop 6)) with _ | j
        · simp
        · by_cases h6 : (extractText p j == "") = true
          · simp [h6]
          · have h6b : (extractText p j == "") = false := by
              cases hx : (extractText p j == "")
              · rfl
              · exact absurd hx h6
            simp [h6b, List.count_cons]
  · have h1b : dataPrefixChars.isPrefixOf l = false := by
      cases hx : dataPrefixChars.isPrefixOf l
      · rfl
      · exact absurd hx h1
    simp [h1b]

theorem count_done_flatMap (p : LLMProvider) (ls : List (List Char)) :
    ((ls.flatMap (lineEvents p)).count SSEEvent.done) = ls.countP isDoneLine := by
  induction ls with
  | nil => rfl
  | cons l ls ih =>
    simp only [List.flatMap_cons, List.count_append, ih, List.countP_cons,
      lineEvents_count_done]
    cases h : isDoneLine l <;> simp [h] <;> omega

/-! ## Claim theorems: stream transformer -/

/-- C5: feeding the transformer a synthetic OpenAI-compatible upstream whose
well-formed `data:` lines carry the deltas "Hel", "lo", " world" followed by
`data: [DONE]` yields exactly the three `text` events in order, then exactly
one sentinel event, with nothing extra or missing. -/
theorem C5_stream_fidelity :
    transformToSSE .openai
      ["data: \x7b\"choices\":[\x7b\"delta\":\x7b\"content\":\"Hel\"\x7d\x7d]\x7d\n\n".toList,
       "data: \x7b\"choices\":[\x7b\"delta\":\x7b\"content\":\"lo\"\x7d\x7d]\x7d\n\n".toList,
       "data: \x7b\"choices\":[\x7b\"delta\":\x7b\"content\":\" world\"\x7d\x7d]\x7d\n\n".toList,
       "data: [DONE]\n\n".toList] =
    [SSEEvent.text "Hel", SSEEvent.text "lo", SSEEvent.text " world",
     SSEEvent.done] := by decide

/-- C6 (amended): the transformer emits one sentinel event for each upstream
line whose payload is the `[DONE]` literal, at its position; in particular,
when the upstream closes without the literal, no sentinel is emitted at all
(the count of sentinel events equals the count of `[DONE]` lines). -/
theorem C6_sentinel_per_done_line (p : LLMProvider) (chunks : List (List Char)) :
    (transformToSSE p chunks).count SSEEvent.done =
      (linesOf chunks).countP isDoneLine := by
  rw [transformToSSE_lines, count_done_flatMap]

/-- C6 counterexample: an upstream that closes after one valid delta line and
never contains `[DONE]` produces no sentinel event (the claim requires the
output to end with exactly one), and an upstream containing the literal twice
produces two sentinel events. -/
theorem C6_counterexample :
    transformToSSE .openai
        ["data: \x7b\"choices\":[\x7b\"delta\":\x7b\"content\":\"Hi\"\x7d\x7d]\x7d\n".toList] =
      [SSEEvent.text "Hi"] ∧
    (transformToSSE .openai
        ["data: \x7b\"choices\":[\x7b\"delta\":\x7b\"content\":\"Hi\"\x7d\x7d]\x7d\n".toList]).count
        SSEEvent.done = 0 ∧
    transformToSSE .openai ["data: [DONE]\ndata: [DONE]\n".toList] =
      [SSEEvent.done, SSEEvent.done] := by decide

/-- C7 (amended): per-chunk processing carries no state across reads, so the
output is invariant under moving a chunk boundary to a newline; a boundary
inside a line is not harmless (see the counterexample). -/
theorem C7_newline_aligned_repartition (p : LLMProvider) (a b : List Char) :
    transformToSSE p [a ++ '\n' :: b] = transformToSSE p [a ++ ['\n'], b] := by
  have h1 : transformToSSE p [a ++ '\n' :: b] =
      processChunk p a ++ processChunk p b := by
    simp [transformToSSE, processChunk_append]
  have h2 : a ++ ['\n'] = a ++ '\n' :: ([] : List Char) := rfl
  have h3 : transformToSSE p [a ++ ['\n'], b] =
      (processChunk p a ++ processChunk p ([] : List Char)) ++ processChunk p b := by
    simp only [transformToSSE, List.flatMap_cons, List.flatMap_nil, h2,
      processChunk_append]
    simp
  rw [h1, h3, processChunk_nil]
  simp

/-- C7 counterexample: splitting one `data:` line across a chunk boundary is
a partition of the same character sequence, yet the unsplit stream yields one
`text` event while the split stream yields none — the transformer keeps no
partial-line buffer across reads. -/
theorem C7_counterexample :
    ("data: \x7b\"cho".toList ++
        "ices\":[\x7b\"delta\":\x7b\"content\":\"Hi\"\x7d\x7d]\x7d\n".toList =
      "data: \x7b\"choices\":[\x7b\"delta\":\x7b\"content\":\"Hi\"\x7d\x7d]\x7d\n".toList) ∧
    transformToSSE .openai
        ["data: \x7b\"choices\":[\x7b\"delta\":\x7b\"content\":\"Hi\"\x7d\x7d]\x7d\n".toList] =
      [SSEEvent.text "Hi"] ∧
    transformToSSE .openai
        ["data: \x7b\"cho".toList,
         "ices\":[\x7b\"delta\":\x7b\"content\":\"Hi\"\x7d\x7d]\x7d\n".toList] = [] := by
  decide

/-- C9: one corrupted (`data:`-prefixed, non-empty, non-sentinel,
non-JSON-parsable) line inserted between two lines does not change the events
those lines produce: the malformed line contributes nothing and the stream is
not aborted. -/
theorem C9_malformed_line_resilience (p : LLMProvider) (l1 bad l2 : List Char)
    (hpre : dataPrefixChars.isPrefixOf bad = true)
    (hnl : ¬ '\n' ∈ bad)
    (hne : (jsTrim (bad.drop 6)).isEmpty = false)
    (hnd : (jsTrim (bad.drop 6) == "[DONE]".toList) = false)
    (hparse : jsonParse (jsTrim (bad.drop 6)) = none) :
    transformToSSE p [l1 ++ '\n' :: (bad ++ '\n' :: l2)] =
      transformToSSE p [l1 ++ '\n' :: l2] := by
  have hbad : lineEvents p bad = [] := by
    have hnd2 : jsTrim (bad.drop 6) ≠ ['[', 'D', 'O', 'N', 'E', ']'] := by
      intro he
      rw [show (['[', 'D', 'O', 'N', 'E', ']'] : List Char) = "[DONE]".toList from rfl] at he
      rw [he] at hnd
      simp at hnd
    unfold lineEvents
    simp [hpre, hne, hnd2, hparse]
  have e2 : processChunk p bad = [] := by
    unfold processChunk
    rw [splitOnNl_no_nl bad hnl]
    cases h : (!(jsTrim bad).isEmpty) <;> simp [List.filter_cons, h, hbad]
  have e1 : transformToSSE p [l1 ++ '\n' :: (bad ++ '\n' :: l2)] =
      processChunk p l1 ++ (processChunk p bad ++ processChunk p l2) := by
    simp [transformToSSE, processChunk_append]
  have e3 : transformToSSE p [l1 ++ '\n' :: l2] =
      processChunk p l1 ++ processChunk p l2 := by
    simp [transformToSSE, processChunk_append]
  rw [e1, e2, e3]
  simp

/-- C9 witness: with a concrete corrupted line between two concrete valid
delta lines, the output equals the output without the corrupted line, namely
the two `text` events in order. -/
theorem C9_witness :
    transformToSSE .openai
        ["data: \x7b\"choices\":[\x7b\"delta\":\x7b\"content\":\"A\"\x7d\x7d]\x7d".toList ++
          '\n' :: ("data: \x7bnot-json".toList ++
            '\n' :: "data: \x7b\"choices\":[\x7b\"delta\":\x7b\"content\":\"B\"\x7d\x7d]\x7d\n".toList)] =
      transformToSSE .openai
        ["data: \x7b\"choices\":[\x7b\"delta\":\x7b\"content\":\"A\"\x7d\x7d]\x7d".toList ++
          '\n' :: "data: \x7b\"choices\":[\x7b\"delta\":\x7b\"content\":\"B\"\x7d\x7d]\x7d\n".toList] ∧
    transformToSSE .openai
        ["data: \x7b\"choices\":[\x7b\"delta\":\x7b\"content\":\"A\"\x7d\x7d]\x7d".toList ++
          '\n' :: "data: \x7b\"choices\":[\x7b\"delta\":\x7b\"content\":\"B\"\x7d\x7d]\x7d\n".toList] =
      [SSEEvent.text "A", SSEEvent.text "B"] :=
  ⟨C9_malformed_line_resilience .openai
      "data: \x7b\"choices\":[\x7b\"delta\":\x7b\"content\":\"A\"\x7d\x7d]\x7d".toList
      "data: \x7bnot-json".toList
      "data: \x7b\"choices\":[\x7b\"delta\":\x7b\"content\":\"B\"\x7d\x7d]\x7d\n".toList
      (by decide) (by decide) (by decide) (by decide) (by rfl),
   by decide⟩

/-! ## Claim theorems: orchestrator -/

theorem fanIn_spec (w d t : Bool) (a b c : PSettled) :
    fanIn w d t a b c =
      { ws := if w then settledValue a else none
        douban := if d then settledValue b else none
        tmdb := if t then settledValue c else none } := by
  cases w <;> cases d <;> cases t <;> rfl

/-- C10: the all-settled fan-in demultiplexes correctly for every subset of
started calls: each returned field equals the fulfilled value of its own
source's promise, is `none` when the source was not started or its promise
rejected, and never receives another source's result — the `resultIndex`
read-out order matches the push order. -/
theorem C10_fan_in_demux (msg : String) (ctx : Option VideoContext)
    (cfg : Option OrchConfig) (env : NetEnv) :
    (orchestrateDataSources msg ctx cfg env).webSearchResults =
      (if wsStartedD msg ctx cfg env then settledValue env.ws else none) ∧
    (orchestrateDataSources msg ctx cfg env).doubanData =
      (if dbStartedD msg ctx cfg env then settledValue env.douban else none) ∧
    (orchestrateDataSources msg ctx cfg env).tmdbData =
      (if tmdbStartedD msg ctx cfg env then settledValue env.tmdb else none) := by
  refine ⟨?_, ?_, ?_⟩ <;> simp [orchestrateDataSources, fanInOf, fanIn_spec]

theorem buildPrompt_ne_empty (f : FanInResult) (ctx : Option VideoContext)
    (cfg : Option OrchConfig) : buildPrompt f ctx cfg ≠ "" := by
  intro h
  have hlen := congrArg String.length h
  have hz : ("" : String).length = 0 := rfl
  simp only [buildPrompt, String.length_append, hz] at hlen
  have hp : promptPreamble.length ≠ 0 := by decide
  omega

theorem webSearchSection_none (cfg : Option OrchConfig) :
    webSearchSection none cfg = "" := rfl

/-- C1 (amended): `orchestrateDataSources` is total and its `systemPrompt` is
never empty; when no source produced data the prompt degrades to the fixed
preamble, then the current-video-context section (present exactly when
`context.title` is truthy), then the closing source-priority section. -/
theorem C1_graceful_degradation (msg : String) (ctx : Option VideoContext)
    (cfg : Option OrchConfig) (env : NetEnv) :
    (orchestrateDataSources msg ctx cfg env).systemPrompt ≠ "" ∧
    ((orchestrateDataSources msg ctx cfg env).webSearchResults = none →
      (orchestrateDataSources msg ctx cfg env).doubanData = none →
      (orchestrateDataSources msg ctx cfg env).tmdbData = none →
      (orchestrateDataSources msg ctx cfg env).systemPrompt =
        promptPreamble ++ contextSection ctx ++ promptClosing) := by
  constructor
  · exact buildPrompt_ne_empty _ _ _
  · intro h1 h2 h3
    have g1 : (fanInOf msg ctx cfg env).ws = none := h1
    have g2 : (fanInOf msg ctx cfg env).douban = none := h2
    have g3 : (fanInOf msg ctx cfg env).tmdb = none := h3
    show buildPrompt (fanInOf msg ctx cfg env) ctx cfg = _
    unfold buildPrompt
    rw [g1, g2, g3, webSearchSection_none]
    show promptPreamble ++ "" ++ "" ++ "" ++ contextSection ctx ++ promptClosing = _
    simp

/-- C1 counterexample: with a context carrying a title, a run in which every
source is skipped or empty yields a prompt that also contains the
current-video-context section, so it is not "preamble plus closing only" as
the claim states for every context. -/
theorem C1_counterexample :
    (orchestrateDataSources "hi" (some { title := some "乱世佳人" }) none {}).webSearchResults =
      none ∧
    (orchestrateDataSources "hi" (some { title := some "乱世佳人" }) none {}).doubanData = none ∧
    (orchestrateDataSources "hi" (some { title := some "乱世佳人" }) none {}).tmdbData = none ∧
    (orchestrateDataSources "hi" (some { title := some "乱世佳人" }) none {}).systemPrompt ≠
      promptPreamble ++ promptClosing := by
  have hws : wsStartedD "hi" (some { title := some "乱世佳人" }) none {} = false := by decide
  have hdb : dbStartedD "hi" (some { title := some "乱世佳人" }) none {} = false := by decide
  have htm : tmdbStartedD "hi" (some { title := some "乱世佳人" }) none {} = false := by decide
  refine ⟨?_, ?_, ?_, ?_⟩
  · simp [orchestrateDataSources, fanInOf, fanIn_spec, hws]
  · simp [orchestrateDataSources, fanInOf, fanIn_spec, hdb]
  · simp [orchestrateDataSources, fanInOf, fanIn_spec, htm]
  · decide

/-- C1 witness: a concrete run with no context and no data reaches the
degraded prompt, which is non-empty. -/
theorem C1_witness :
    (orchestrateDataSources "hi" none none {}).systemPrompt ≠ "" ∧
    (orchestrateDataSources "hi" none none {}).systemPrompt =
      promptPreamble ++ contextSection none ++ promptClosing :=
  ⟨(C1_graceful_degradation "hi" none none {}).1,
   (C1_graceful_degradation "hi" none none {}).2 rfl rfl rfl⟩

theorem wsGate_eq (c : OrchConfig) :
    (c.enableWebSearch && (match c.webSearchProvider with
      | some p => strTruthyO (wsApiKey c p)
      | none => false)) = hasWebSearchProvider c := by
  rcases hp : c.webSearchProvider with _ | p
  · simp [hasWebSearchProvider, hp]
  · cases p
    case tavily =>
      have b2 : (WSProvider.tavily == WSProvider.serper) = false := by decide
      have b3 : (WSProvider.tavily == WSProvider.serpapi) = false := by decide
      simp [hasWebSearchProvider, hp, wsApiKey, b2, b3]
    case serper =>
      have b2 : (WSProvider.serper == WSProvider.tavily) = false := by decide
      have b3 : (WSProvider.serper == WSProvider.serpapi) = false := by decide
      simp [hasWebSearchProvider, hp, wsApiKey, b2, b3]
    case serpapi =>
      have b2 : (WSProvider.serpapi == WSProvider.tavily) = false := by decide
      have b3 : (WSProvider.serpapi == WSProvider.serper) = false := by decide
      simp [hasWebSearchProvider, hp, wsApiKey, b2, b3]

/-- C2: when the availability map handed to the decision model marks a
source unavailable (web search lacking an enabled provider with matching
key, or TMDB lacking an API key), no HTTP request is issued to that source,
whatever flags the decision result carries. -/
theorem C2_availability_override (msg : String) (ctx : Option VideoContext)
    (c : OrchConfig) (env : NetEnv) :
    (hasWebSearchProvider c = false → wsHttpIssuedD msg ctx (some c) env = false) ∧
    (hasTMDB c = false → tmdbHttpIssuedD msg ctx (some c) env = false) := by
  constructor
  · intro h
    have hg := wsGate_eq c
    rw [h] at hg
    show ((resolvedIntentD msg ctx (some c) env).needWebSearch &&
        (c.enableWebSearch && (match c.webSearchProvider with
          | some p => strTruthyO (wsApiKey c p)
          | none => false))) = false
    rw [hg, Bool.and_false]
  · intro h
    have h2 : strTruthyO c.tmdbApiKey = false := h
    show (tmdbStartedD msg ctx (some c) env &&
        (strTruthyO c.tmdbApiKey && idTruthy (ctx.bind (·.tmdb_id)) &&
          (ctx.bind (·.type)).isSome)) = false
    rw [h2]
    simp

/-- C2 witness: with an unavailable web search (disabled) and no TMDB key,
but a decision result demanding both, neither HTTP request is issued. -/
theorem C2_witness :
    wsHttpIssuedD "最近有什么新电影" (some { tmdb_id := some 603, type := some .movie })
      (some { enableDecisionModel := true, decisionProvider := some .custom,
              decisionApiKey := some "k", decisionModel := some "m" })
      { decision := some { needWebSearch := true, needTMDB := true } } = false ∧
    tmdbHttpIssuedD "最近有什么新电影" (some { tmdb_id := some 603, type := some .movie })
      (some { enableDecisionModel := true, decisionProvider := some .custom,
              decisionApiKey := some "k", decisionModel := some "m" })
      { decision := some { needWebSearch := true, needTMDB := true } } = false :=
  ⟨(C2_availability_override "最近有什么新电影"
      (some { tmdb_id := some 603, type := some .movie })
      { enableDecisionModel := true, decisionProvider := some .custom,
        decisionApiKey := some "k", decisionModel := some "m" }
      { decision := some { needWebSearch := true, needTMDB := true } }).1 rfl,
   (C2_availability_override "最近有什么新电影"
      (some { tmdb_id := some 603, type := some .movie })
      { enableDecisionModel := true, decisionProvider := some .custom,
        decisionApiKey := some "k", decisionModel := some "m" }
      { decision := some { needWebSearch := true, needTMDB := true } }).2 rfl⟩

/-- C4 counterexample: for the message "这部电影讲的是什么" with context
`\x7btmdb_id: 603, type: movie\x7d` and no title, the classifier yields
`type = general` (the `detail` branch requires a context title) and
`needDouban = false` — not `detail`/`true` as the claim states. -/
theorem C4_counterexample :
    (analyzeIntent "这部电影讲的是什么"
        (some { tmdb_id := some 603, type := some MediaType.movie })).type =
      IntentType.general ∧
    (analyzeIntent "这部电影讲的是什么"
        (some { tmdb_id := some 603, type := some MediaType.movie })).needDouban =
      false := by decide

/-- C4 (amended): for that message and context the classifier path yields
`type = general`, `needTMDB = true` (positive international id) and
`needDouban = false`; the orchestrator starts only the international call,
and an international call that times out settles as `null` (the adapter
catches the abort), so the data is omitted while the request still produces
a non-empty prompt. -/
theorem C4_detail_scenario (cfg : Option OrchConfig) (env : NetEnv)
    (hgate : decisionGate cfg = false) :
    (analyzeIntent "这部电影讲的是什么"
        (some { tmdb_id := some 603, type := some MediaType.movie })).type =
      IntentType.general ∧
    (analyzeIntent "这部电影讲的是什么"
        (some { tmdb_id := some 603, type := some MediaType.movie })).needDouban = false ∧
    (analyzeIntent "这部电影讲的是什么"
        (some { tmdb_id := some 603, type := some MediaType.movie })).needTMDB = true ∧
    wsStartedD "这部电影讲的是什么"
      (some { tmdb_id := some 603, type := some MediaType.movie }) cfg env = false ∧
    dbStartedD "这部电影讲的是什么"
      (some { tmdb_id := some 603, type := some MediaType.movie }) cfg env = false ∧
    tmdbStartedD "这部电影讲的是什么"
      (some { tmdb_id := some 603, type := some MediaType.movie }) cfg env = true ∧
    (env.tmdb = PSettled.fulfilled none →
      (orchestrateDataSources "这部电影讲的是什么"
        (some { tmdb_id := some 603, type := some MediaType.movie }) cfg env).tmdbData =
        none ∧
      (orchestrateDataSources "这部电影讲的是什么"
        (some { tmdb_id := some 603, type := some MediaType.movie }) cfg env).systemPrompt ≠
        "") := by
  have hi : resolvedIntentD "这部电影讲的是什么"
      (some { tmdb_id := some 603, type := some MediaType.movie }) cfg env =
      toResolvedIntent (analyzeIntent "这部电影讲的是什么"
        (some { tmdb_id := some 603, type := some MediaType.movie })) := by
    unfold resolvedIntentD resolvedDecision
    rw [hgate]
    rfl
  have hws : wsStartedD "这部电影讲的是什么"
      (some { tmdb_id := some 603, type := some MediaType.movie }) cfg env = false := by
    unfold wsStartedD
    rw [hi]
    have hnw : (toResolvedIntent (analyzeIntent "这部电影讲的是什么"
        (some { tmdb_id := some 603, type := some MediaType.movie }))).needWebSearch =
        false := by decide
    rw [hnw, Bool.false_and]
  have hdb : dbStartedD "这部电影讲的是什么"
      (some { tmdb_id := some 603, type := some MediaType.movie }) cfg env = false := by
    unfold dbStartedD
    rw [hi]
    decide
  have htm : tmdbStartedD "这部电影讲的是什么"
      (some { tmdb_id := some 603, type := some MediaType.movie }) cfg env = true := by
    unfold tmdbStartedD
    rw [hi]
    decide
  refine ⟨by decide, by decide, by decide, hws, hdb, htm, ?_⟩
  intro ht
  constructor
  · show (fanInOf "这部电影讲的是什么"
      (some { tmdb_id := some 603, type := some MediaType.movie }) cfg env).tmdb = none
    simp [fanInOf, fanIn_spec, htm, ht, settledValue]
  · exact buildPrompt_ne_empty _ _ _

/-- C4 witness: with no configuration (decision model off) and a timed-out
international call, only TMDB was started, its data is omitted, and the
prompt is still produced. -/
theorem C4_witness :
    (orchestrateDataSources "这部电影讲的是什么"
        (some { tmdb_id := some 603, type := some MediaType.movie }) none
        { tmdb := PSettled.fulfilled none }).tmdbData = none ∧
    (orchestrateDataSources "这部电影讲的是什么"
        (some { tmdb_id := some 603, type := some MediaType.movie }) none
        { tmdb := PSettled.fulfilled none }).systemPrompt ≠ "" :=
  (C4_detail_scenario none { tmdb := PSettled.fulfilled none } rfl).2.2.2.2.2.2 rfl

theorem analyzeIntent_seasonTwo (v : VideoContext) (ht : strTruthyO v.title = true) :
    analyzeIntent "这部剧什么时候出第二季" (some v) =
      { type := IntentType.detail, mediaType := v.type, genre := none,
        needWebSearch := true, needDouban := true, needTMDB := true,
        keywords := ["什么时候", "第二季"] } := by
  have h1 : timeKeywords.any (fun k => strContains "这部剧什么时候出第二季" k) = true := by
    decide
  have h2 : recommendKeywords.any (fun k => strContains "这部剧什么时候出第二季" k) = false := by
    decide
  have h5 : strContains (String.mk ("这部剧什么时候出第二季".toList.map Char.toLower)) "这部" =
      true := by decide
  have m1 : strContains "这部剧什么时候出第二季" "电影" = false := by decide
  have m2 : strContains "这部剧什么时候出第二季" "电视剧" = false := by decide
  have m3 : strContains "这部剧什么时候出第二季" "剧集" = false := by decide
  have m4 : strContains "这部剧什么时候出第二季" "综艺" = false := by decide
  have m5 : strContains "这部剧什么时候出第二季" "动漫" = false := by decide
  have m6 : strContains "这部剧什么时候出第二季" "动画" = false := by decide
  have kw : timeKeywords.filter (fun k => strContains "这部剧什么时候出第二季" k) =
      ["什么时候", "第二季"] := by decide
  have e1 : (IntentType.detail == IntentType.query) = false := by decide
  have e2 : (IntentType.detail == IntentType.detail) = true := by decide
  unfold analyzeIntent
  simp only [h1, h2, h5, m1, m2, m3, m4, m5, m6, kw, e1, e2, Option.some_bind, ht,
    Bool.true_and, Bool.false_or, Bool.or_true, Bool.true_or, Bool.and_true,
    Bool.and_false, Bool.false_and, if_true, if_false, Bool.or_false]
  simp [ht]

/-- C8 counterexample: for "这部剧什么时候出第二季" with a context title set,
the message contains "这部", so with a title present the classifier resolves
`type = detail`, not `query` as the claim states. -/
theorem C8_counterexample :
    (analyzeIntent "这部剧什么时候出第二季"
        (some { title := some "某剧", type := some MediaType.tv })).type ≠
      IntentType.query ∧
    (analyzeIntent "这部剧什么时候出第二季"
        (some { title := some "某剧", type := some MediaType.tv })).type =
      IntentType.detail := by decide

/-- C8 (amended): for that message with any truthy context title the
classifier detects a time-sensitivity keyword ("什么时候") and returns
`needWebSearch = true`, with `type` resolving to `detail`; under the
classifier path the orchestrator attempts the web-search call exactly when
web search is enabled and a provider with its matching key is configured,
and otherwise the web-search section of the prompt is empty. -/
theorem C8_season_two_scenario (v : VideoContext) (c : OrchConfig) (env : NetEnv)
    (ht : strTruthyO v.title = true)
    (hgate : decisionGate (some c) = false) :
    (analyzeIntent "这部剧什么时候出第二季" (some v)).needWebSearch = true ∧
    "什么时候" ∈ (analyzeIntent "这部剧什么时候出第二季" (some v)).keywords ∧
    (analyzeIntent "这部剧什么时候出第二季" (some v)).type = IntentType.detail ∧
    wsStartedD "这部剧什么时候出第二季" (some v) (some c) env = hasWebSearchProvider c ∧
    (hasWebSearchProvider c = false →
      webSearchSection
        (orchestrateDataSources "这部剧什么时候出第二季" (some v) (some c) env).webSearchResults
        (some c) = "") := by
  have hai := analyzeIntent_seasonTwo v ht
  have hi : resolvedIntentD "这部剧什么时候出第二季" (some v) (some c) env =
      toResolvedIntent (analyzeIntent "这部剧什么时候出第二季" (some v)) := by
    unfold resolvedIntentD resolvedDecision
    rw [hgate]
    rfl
  have hws_eq : wsStartedD "这部剧什么时候出第二季" (some v) (some c) env =
      hasWebSearchProvider c := by
    unfold wsStartedD
    rw [hi]
    have hnw : (toResolvedIntent
        (analyzeIntent "这部剧什么时候出第二季" (some v))).needWebSearch = true := by
      rw [hai]
      rfl
    rw [hnw, Bool.true_and]
    exact wsGate_eq c
  refine ⟨by rw [hai], by rw [hai]; simp, by rw [hai], hws_eq, ?_⟩
  intro hw
  have hws : wsStartedD "这部剧什么时候出第二季" (some v) (some c) env = false :=
    hws_eq.trans hw
  have hnone : (orchestrateDataSources "这部剧什么时候出第二季" (some v) (some c)
      env).webSearchResults = none := by
    simp [orchestrateDataSources, fanInOf, fanIn_spec, hws]
  rw [hnone]
  exact webSearchSection_none _

/-- C8 witness: at a concrete title and empty configuration, the keyword is
detected, the type is `detail`, and the web-search section is absent. -/
theorem C8_witness :
    (analyzeIntent "这部剧什么时候出第二季"
        (some { title := some "某剧" })).needWebSearch = true ∧
    webSearchSection
      (orchestrateDataSources "这部剧什么时候出第二季" (some { title := some "某剧" })
          (some {}) {}).webSearchResults (some {}) = "" :=
  ⟨(C8_season_two_scenario { title := some "某剧" } {} {} rfl rfl).1,
   (C8_season_two_scenario { title := some "某剧" } {} {} rfl rfl).2.2.2.2 rfl⟩

/-! ## Claim theorems: chat endpoint -/

/-- C3 counterexample: a fully authorized request with a valid message but no
`CustomApiKey` gets a 400 structured error, yet orchestration has already run
and a Douban HTTP request was issued before the failing gate returned — the
custom-key gate is checked only after orchestration. -/
theorem C3_counterexample :
    (POSTmodel { auth := some "alice",
                 adminConfig := { AIConfig := some { Enabled := true, AllowRegularUsers := true } },
                 body := some { message := some "推荐一些好看的电影" } }).status = 400 ∧
    (POSTmodel { auth := some "alice",
                 adminConfig := { AIConfig := some { Enabled := true, AllowRegularUsers := true } },
                 body := some { message := some "推荐一些好看的电影" } }).orchestrated = true ∧
    (POSTmodel { auth := some "alice",
                 adminConfig := { AIConfig := some { Enabled := true, AllowRegularUsers := true } },
                 body := some { message := some "推荐一些好看的电影" } }).dbCalled = true := by
  decide

/-- C3 (amended): the authentication, feature-enabled, role and
message-validity gates each return a structured non-200 error with no
orchestration performed; the custom key/base-URL completeness gate also
returns a 400 error, but only after orchestration has run (provider calls
may already have been issued). -/
theorem C3_gate_order (env : RouteEnv) (ai : AIConfigM) (b : BodyM) :
    (strTruthyO env.auth = false →
      (POSTmodel env).status = 401 ∧ (POSTmodel env).orchestrated = false) ∧
    (strTruthyO env.auth = true → env.adminConfig.AIConfig = some ai →
      ai.Enabled = false →
      (POSTmodel env).status = 400 ∧ (POSTmodel env).orchestrated = false) ∧
    (strTruthyO env.auth = true → env.adminConfig.AIConfig = some ai →
      ai.Enabled = true → ai.AllowRegularUsers = false →
      (env.envUsername != env.auth) = true → roleBad env.userInfo = true →
      (POSTmodel env).status = 403 ∧ (POSTmodel env).orchestrated = false) ∧
    (strTruthyO env.auth = true → env.adminConfig.AIConfig = some ai →
      ai.Enabled = true → ai.AllowRegularUsers = true → env.body = some b →
      strTruthyO b.message = false →
      (POSTmodel env).status = 400 ∧ (POSTmodel env).orchestrated = false) ∧
    (strTruthyO env.auth = true → env.adminConfig.AIConfig = some ai →
      ai.Enabled = true → ai.AllowRegularUsers = true → env.body = some b →
      strTruthyO b.message = true → strTruthyO ai.CustomApiKey = false →
      (POSTmodel env).status = 400 ∧ (POSTmodel env).orchestrated = true) := by
  refine ⟨?_, ?_, ?_, ?_, ?_⟩
  · intro h1
    simp [POSTmodel, h1]
  · intro h1 h2 h3
    simp [POSTmodel, h1, h2, h3]
  · intro h1 h2 h3 h4 h5 h6
    simp [POSTmodel, h1, h2, h3, h4, h5, h6]
  · intro h1 h2 h3 h4 h5 h6
    simp [POSTmodel, h1, h2, h3, h4, h5, h6]
  · intro h1 h2 h3 h4 h5 h6 h7
    simp [POSTmodel, h1, h2, h3, h4, h5, h6, h7]

/-- C3 witness: an unauthenticated request gets a 401 and no orchestration. -/
theorem C3_witness :
    (POSTmodel {}).status = 401 ∧ (POSTmodel {}).orchestrated = false :=
  (C3_gate_order {} {} {}).1 rfl
